import Mathlib

/-!
Shallow embedding of `src/shadow_analyzer_git.py` (function `analyze_shadow_file`).

Modelling conventions:
* Python strings are Lean `String`; `line.strip()` is `pyStrip`,
  `line.split(':')` is `pySplit`, and `'; '.join(...)` is `joinSep` (defined
  below at the character level so the kernel can evaluate them).
* Python `int(s)` on a string is modelled by `pyInt : String → Option Int`
  (`none` models the `ValueError` raised on parse failure): surrounding
  whitespace is allowed, then an optional sign and a nonempty run of decimal
  digits.  (Python additionally accepts underscore digit-group separators and
  non-ASCII digits; no claim depends on those inputs.)
* Time: `datetime.now()` is a parameter `now : Int`, seconds since the epoch;
  `datetime.fromtimestamp (lc * 86400)` is the integer `lc * 86400` seconds.
  Datetimes are idealised as unbounded integer second counts (the library's
  bounded year range and local-timezone conversion are outside the embedding).
  `timedelta.days` of the difference of two datetimes is floor division of the
  difference in seconds by 86400 (`timedelta` normalises with
  `0 ≤ seconds < 86400`, so `.days` rounds toward negative infinity).
* Console/file I/O of the driver is modelled as a trace of `Effect`s.
-/

namespace ShadowAnalyzer

/-- Strip leading and trailing whitespace from a character list
(Python `str.strip()` at the character level). -/
def stripChars (cs : List Char) : List Char :=
  ((cs.dropWhile Char.isWhitespace).reverse.dropWhile Char.isWhitespace).reverse

/-- Python `line.strip()`. -/
def pyStrip (s : String) : String :=
  String.mk (stripChars s.data)

/-- Python `s.split(sep)` for a one-character separator, at the character
level: always at least one piece, empty pieces kept. -/
def splitSepChars (sep : Char) : List Char → List (List Char)
  | [] => [[]]
  | c :: cs =>
    if c = sep then [] :: splitSepChars sep cs
    else
      match splitSepChars sep cs with
      | [] => [[c]]
      | h :: t => (c :: h) :: t

/-- Python `s.split(sep)` for a one-character separator. -/
def pySplit (s : String) (sep : Char) : List String :=
  (splitSepChars sep s.data).map String.mk

/-- Python `sep.join(pieces)`. -/
def joinSep (sep : String) : List String → String
  | [] => ""
  | [s] => s
  | s :: rest => s ++ sep ++ joinSep sep rest

/-- Value of a nonempty list of decimal digit characters. -/
def digitsVal (cs : List Char) : Nat :=
  cs.foldl (fun a c => a * 10 + (c.toNat - 48)) 0

/-- A nonempty all-digit character list, as accepted after the optional sign. -/
def pyNat (cs : List Char) : Option Nat :=
  if cs ≠ [] ∧ cs.all Char.isDigit then some (digitsVal cs) else none

/-- Python `int(s)` for a string `s`: `some n` on success, `none` models the
`ValueError` path. Strips surrounding whitespace, then an optional `+`/`-`
sign followed by a nonempty digit run. -/
def pyInt (s : String) : Option Int :=
  match stripChars s.data with
  | [] => none
  | c :: rest =>
    if c = '+' then (pyNat rest).map Int.ofNat
    else if c = '-' then (pyNat rest).map (fun n => -(n : Int))
    else (pyNat (c :: rest)).map Int.ofNat

/-- Source lines 54-55: `(datetime.now() - datetime.fromtimestamp(lc * 86400)).days`.
`now` is the current time in seconds since the epoch; the result is the floor
of the difference in days (`timedelta.days` rounds toward negative infinity). -/
def daysSinceChange (now lc : Int) : Int :=
  Int.fdiv (now - lc * 86400) 86400

/-- The day count as claim C6 words it: fractional-day differences truncate
toward zero (`Int.tdiv` is T-division). Written from the spec's words, for
comparison with `daysSinceChange`, which is written from the source. -/
def daysSinceChangeTrunc (now lc : Int) : Int :=
  Int.tdiv (now - lc * 86400) 86400

/-- Finding text of source line 44. -/
def noPasswordMsg : String := "No password set"

/-- Finding text of source line 46 (the spec calls this the external-shadow-store
finding and writes it as the placeholder "Password stored in [external shadow store]"). -/
def extStoreMsg : String := "Password stored in /etc/shadow"

/-- Finding text of source line 61. -/
def noExpiryMsg : String := "No password expiry set"

/-- Finding text of source line 64. -/
def todayMsg : String := "Password changed today - verify if authorized"

/-- Finding text of source line 66 (the `except ValueError` handler). -/
def invalidMsg : String := "Invalid date format in password age field"

/-- Finding text of source line 59: `f"Password expired {d - ma} days ago"`. -/
def expiredMsg (n : Int) : String :=
  "Password expired " ++ toString n ++ " days ago"

/-- Source lines 43-46: the password presence/storage rule. -/
def pwIssues (password_field : String) : List String :=
  if password_field ∈ ["", "*", "!", "!!"] then [noPasswordMsg]
  else if password_field = "x" then [extStoreMsg]
  else []

/-- Source lines 49-66: the age/expiry rule, with the `try/except ValueError`
control flow made explicit.  `if last_changed:` is the truthiness test
`last_changed ≠ ""`; a `ValueError` from `int(last_changed)` or from
`int(max_age)` (line 57, reached only when `max_age` is truthy) aborts the
block with the invalid-date finding, so the recency check of line 63 runs only
when neither parse raised. -/
def ageIssues (last_changed max_age : String) (now : Int) : List String :=
  if last_changed = "" then []
  else
    match pyInt last_changed with
    | none => [invalidMsg]
    | some lc =>
      if max_age = "" then
        [noExpiryMsg] ++ (if daysSinceChange now lc < 1 then [todayMsg] else [])
      else
        match pyInt max_age with
        | none => [invalidMsg]
        | some ma =>
          (if 0 < ma then
            (if ma < daysSinceChange now lc then
              [expiredMsg (daysSinceChange now lc - ma)]
            else [])
          else [noExpiryMsg])
          ++ (if daysSinceChange now lc < 1 then [todayMsg] else [])

/-- The full findings list of one record (`issues` in the source): the password
rule followed by the age rule, in source order. -/
def recIssues (password_field last_changed max_age : String) (now : Int) :
    List String :=
  pwIssues password_field ++ ageIssues last_changed max_age now

/-- One entry of `security_issues` (source lines 70-76). -/
structure Row where
  username : String
  issues : String
  last_changed : String
  max_age : String
  warning_period : String
deriving DecidableEq, Repr

/-- The colon fields of one raw input line (source line 27):
`line.strip().split(':')`. -/
def splitParts (line : String) : List String :=
  pySplit (pyStrip line) ':'

/-- Source lines 27-76 for one line: `none` when the line is malformed
(fewer than 9 fields, line 29) or accumulated no findings (line 69);
otherwise the `security_issues` entry it contributes. -/
def processLine (line : String) (now : Int) : Option Row :=
  let parts := splitParts line
  if parts.length < 9 then none
  else
    let issues := recIssues (parts.getD 1 "") (parts.getD 2 "") (parts.getD 4 "") now
    if issues = [] then none
    else
      some { username := parts.getD 0 ""
             issues := joinSep "; " issues
             last_changed := parts.getD 2 ""
             max_age := parts.getD 4 ""
             warning_period := parts.getD 5 "" }

/-- The loop of source lines 24-81: fold over the input lines, appending
each contributed entry to the accumulator `security_issues`. -/
def analyzeLoop (now : Int) : List String → List Row → List Row
  | [], acc => acc
  | l :: ls, acc =>
    match processLine l now with
    | none => analyzeLoop now ls acc
    | some r => analyzeLoop now ls (acc ++ [r])

/-- The final `security_issues` list of a run over the given input lines. -/
def securityRows (lines : List String) (now : Int) : List Row :=
  analyzeLoop now lines []

/-- The cells of one CSV data row, in the `fieldnames` order of line 84. -/
def rowCells (r : Row) : List String :=
  [r.username, r.issues, r.last_changed, r.max_age, r.warning_period]

/-- The CSV header row of source lines 84-87. -/
def headerCells : List String :=
  ["username", "issues", "last_changed", "max_age", "warning_period"]

/-- The rows of the output file (source lines 83-89): header then one row per
`security_issues` entry. -/
def csvTable (lines : List String) (now : Int) : List (List String) :=
  headerCells :: (securityRows lines now).map rowCells

/-- One observable action of the driver: a console print, a successful open
of the input file, or the write of the output table. -/
inductive Effect where
  | printMsg (msg : String)
  | openInput
  | writeOutput (table : List (List String))
deriving DecidableEq, Repr

/-- The console diagnostics the loop emits for one line: only the malformed-line
skip of source line 30 (in the pure embedding no other per-line exception fires). -/
def lineEffects (line : String) : List Effect :=
  if (splitParts line).length < 9 then
    [Effect.printMsg ("Skipping malformed line: " ++ pyStrip line)]
  else []

/-- The three prints of the `except PermissionError` handler (lines 94-97). -/
def privEffects : List Effect :=
  [Effect.printMsg "Permission error: This script must be run as root to access /etc/shadow",
   Effect.printMsg "Please run the script with sudo:",
   Effect.printMsg "sudo python3 shadow_analyzer.py"]

/-- The whole driver (source lines 14-101) as an effect trace.  `euid` models
`os.geteuid()`; `input` is `some lines` when the input file exists with those
lines and `none` when opening it raises `FileNotFoundError`. -/
def run (euid : Int) (input : Option (List String)) (now : Int)
    (input_path output_path : String) : List Effect :=
  if euid ≠ 0 then privEffects
  else
    Effect.printMsg "Attempting to read shadow file..." ::
    match input with
    | none => [Effect.printMsg ("Error: Could not find shadow file at " ++ input_path)]
    | some lines =>
      Effect.openInput ::
      (lines.flatMap lineEffects ++
        [Effect.writeOutput (csvTable lines now),
         Effect.printMsg ("\nAnalysis complete. Found " ++
           toString (securityRows lines now).length ++ " potential security issues."),
         Effect.printMsg ("Results written to " ++ output_path)])

/-- The empty string never parses as an integer. -/
lemma pyInt_empty : pyInt "" = none := rfl

/-- A string that parses as an integer is nonempty. -/
lemma pyInt_some_ne_empty {s : String} {n : Int} (h : pyInt s = some n) :
    s ≠ "" := by
  intro he
  rw [he, pyInt_empty] at h
  exact Option.noConfusion h

/-- The character at index 9 of any expired-password finding is `e`. -/
lemma expiredMsg_data_get9 (n : Int) : (expiredMsg n).data.getD 9 ' ' = 'e' := rfl

/-- A string whose character at index 9 is not `e` is not an expired-password
finding, whatever the day count. -/
lemma expiredMsg_ne {s : String} (h : s.data.getD 9 ' ' ≠ 'e') (n : Int) :
    expiredMsg n ≠ s :=
  fun hn => h (hn ▸ expiredMsg_data_get9 n)

/-- The password rule only ever emits the two password findings. -/
lemma mem_pwIssues {m pf : String} (h : m ∈ pwIssues pf) :
    m = noPasswordMsg ∨ m = extStoreMsg := by
  unfold pwIssues at h
  split at h
  · exact Or.inl (List.mem_singleton.mp h)
  · split at h
    · exact Or.inr (List.mem_singleton.mp h)
    · exact absurd h (List.not_mem_nil m)

/-- Claim C2: the password-presence rule maps `""`, `"*"`, `"!"`, `"!!"` to the
finding "No password set", maps `"x"` to the external-shadow-store finding
(literally "Password stored in /etc/shadow") without "No password set", and
emits nothing for any other token. -/
theorem C2_password_rule (pf : String) :
    (pf ∈ ["", "*", "!", "!!"] → pwIssues pf = [noPasswordMsg])
  ∧ (pf = "x" → pwIssues pf = [extStoreMsg] ∧ noPasswordMsg ∉ pwIssues pf)
  ∧ (pf ∉ ["", "*", "!", "!!"] → pf ≠ "x" → pwIssues pf = []) := by
  refine ⟨fun h => ?_, fun h => ?_, fun h1 h2 => ?_⟩
  · simp [pwIssues, h]
  · subst h
    exact ⟨by decide, by decide⟩
  · simp [pwIssues, h1, h2]

/-- Witness for C2 at the concrete token `"x"`. -/
theorem C2_password_rule_witness :
    pwIssues "x" = [extStoreMsg] ∧ noPasswordMsg ∉ pwIssues "x" :=
  (C2_password_rule "x").2.1 rfl

/-- Claim C5: a record whose `last_changed` is empty gets no age-related
finding at all, whatever `max_age` (and `warning_period`, which the rules
never read) hold: the age rule contributes nothing and none of the four
age-related finding texts occurs among the record's findings. -/
theorem C5_empty_last_changed (pf max_age : String) (now : Int) :
    ageIssues "" max_age now = []
  ∧ recIssues pf "" max_age now = pwIssues pf
  ∧ (∀ n : Int, expiredMsg n ∉ recIssues pf "" max_age now)
  ∧ noExpiryMsg ∉ recIssues pf "" max_age now
  ∧ todayMsg ∉ recIssues pf "" max_age now
  ∧ invalidMsg ∉ recIssues pf "" max_age now := by
  have hrec : recIssues pf "" max_age now = pwIssues pf := by
    simp [recIssues, ageIssues]
  refine ⟨rfl, hrec, ?_, ?_, ?_, ?_⟩
  · intro n hn
    rw [hrec] at hn
    rcases mem_pwIssues hn with h | h
    · exact expiredMsg_ne (by decide) n h
    · exact expiredMsg_ne (by decide) n h
  · intro hn
    rw [hrec] at hn
    rcases mem_pwIssues hn with h | h <;> exact absurd h (by decide)
  · intro hn
    rw [hrec] at hn
    rcases mem_pwIssues hn with h | h <;> exact absurd h (by decide)
  · intro hn
    rw [hrec] at hn
    rcases mem_pwIssues hn with h | h <;> exact absurd h (by decide)

/-- Claim C3 fails as stated: for the record with `last_changed = "0"`,
`max_age = "abc"` and `now = 0`, `last_changed` parses and
`days_since_change = 0 < 1`, yet the recency finding is absent — the
unparseable `max_age` raises before the recency check, leaving only the
invalid-date finding. -/
theorem C3_counterexample :
    pyInt "0" = some 0 ∧ daysSinceChange 0 0 < 1
  ∧ todayMsg ∉ ageIssues "0" "abc" 0
  ∧ ageIssues "0" "abc" 0 = [invalidMsg] := by decide

/-- Claim C3 amended: when `last_changed` parses and `days_since_change < 1`,
the finding "Password changed today - verify if authorized" is present
regardless of other findings, provided `max_age` is empty or itself parses as
an integer (a non-empty unparseable `max_age` aborts the age block before the
recency check). -/
theorem C3_amended_today_rule (last_changed max_age : String) (now lc : Int)
    (hlc : pyInt last_changed = some lc)
    (hma : max_age = "" ∨ ∃ ma, pyInt max_age = some ma)
    (hd : daysSinceChange now lc < 1) :
    todayMsg ∈ ageIssues last_changed max_age now := by
  have hne := pyInt_some_ne_empty hlc
  rcases hma with h | ⟨ma, hma⟩
  · simp [ageIssues, hne, hlc, h, hd]
  · have hmane := pyInt_some_ne_empty hma
    simp [ageIssues, hne, hlc, hmane, hma, hd]

/-- Witness for the amended C3 at `last_changed = "0"`, `max_age = ""`,
`now = 0`. -/
theorem C3_amended_today_rule_witness :
    todayMsg ∈ ageIssues "0" "" 0 :=
  C3_amended_today_rule "0" "" 0 0 (by decide) (Or.inl rfl) (by decide)

/-- Claim C1: for a record whose `last_changed` parses, if `max_age` parses to
a positive integer then the expiry part of the age findings is exactly the
expired finding with count `days_since_change - max_age`, present if and only
if `days_since_change > max_age`; and if `max_age` is empty or parses to a
non-positive integer, the finding "No password expiry set" is appended. -/
theorem C1_expiry_rule (last_changed max_age : String) (now lc : Int)
    (hlc : pyInt last_changed = some lc) :
    (∀ ma : Int, pyInt max_age = some ma → 0 < ma →
      ageIssues last_changed max_age now =
        (if ma < daysSinceChange now lc then
          [expiredMsg (daysSinceChange now lc - ma)] else [])
        ++ (if daysSinceChange now lc < 1 then [todayMsg] else []))
  ∧ ((max_age = "" ∨ ∃ ma : Int, pyInt max_age = some ma ∧ ma ≤ 0) →
      noExpiryMsg ∈ ageIssues last_changed max_age now) := by
  have hne := pyInt_some_ne_empty hlc
  constructor
  · intro ma hma hpos
    have hmane := pyInt_some_ne_empty hma
    simp [ageIssues, hne, hlc, hmane, hma, hpos]
  · rintro (h | ⟨ma, hma, hle⟩)
    · simp [ageIssues, hne, hlc, h]
    · have hmane := pyInt_some_ne_empty hma
      simp [ageIssues, hne, hlc, hmane, hma, not_lt.mpr hle]

/-- Witness for C1: `last_changed = "0"`, `max_age = "30"`, `now` forty days
after the epoch, giving the single finding "Password expired 10 days ago". -/
theorem C1_expiry_rule_witness :
    ageIssues "0" "30" 3456000 = [expiredMsg 10] := by
  have h := (C1_expiry_rule "0" "30" 3456000 0 (by decide)).1 30 (by decide)
    (by decide)
  rw [h]; decide

/-- Where the invalid-date finding can come from: `last_changed` is truthy and
either it fails to parse, or it parses and a truthy `max_age` fails to parse. -/
lemma invalid_mem_ageIssues (last_changed max_age : String) (now : Int) :
    invalidMsg ∈ ageIssues last_changed max_age now ↔
      last_changed ≠ "" ∧
        (pyInt last_changed = none ∨ (max_age ≠ "" ∧ pyInt max_age = none)) := by
  by_cases h1 : last_changed = ""
  · simp [ageIssues, h1]
  · cases hp : pyInt last_changed with
    | none => simp [ageIssues, h1, hp]
    | some lc =>
      by_cases h2 : max_age = ""
      · have he : ageIssues last_changed max_age now =
            [noExpiryMsg] ++
              (if daysSinceChange now lc < 1 then [todayMsg] else []) := by
          simp [ageIssues, h1, hp, h2]
        rw [he]
        constructor
        · intro hm
          exact absurd hm (by split <;> decide)
        · rintro ⟨-, h | ⟨hne, -⟩⟩
          · exact Option.noConfusion h
          · exact absurd h2 hne
      · cases hq : pyInt max_age with
        | none => simp [ageIssues, h1, hp, h2, hq]
        | some ma =>
          have he : ageIssues last_changed max_age now =
              (if 0 < ma then
                (if ma < daysSinceChange now lc then
                  [expiredMsg (daysSinceChange now lc - ma)] else [])
              else [noExpiryMsg]) ++
                (if daysSinceChange now lc < 1 then [todayMsg] else []) := by
            simp [ageIssues, h1, hp, h2, hq]
          rw [he]
          constructor
          · intro hm
            rcases List.mem_append.mp hm with hm | hm
            · split at hm
              · split at hm
                · exact absurd (List.mem_singleton.mp hm).symm
                    (expiredMsg_ne (by decide) _)
                · exact absurd hm (List.not_mem_nil _)
              · exact absurd (List.mem_singleton.mp hm) (by decide)
            · split at hm
              · exact absurd (List.mem_singleton.mp hm) (by decide)
              · exact absurd hm (List.not_mem_nil _)
          · rintro ⟨-, h | ⟨-, hq'⟩⟩
            · exact Option.noConfusion h
            · exact Option.noConfusion hq'

/-- Claim C4: the invalid-date finding appears among a record's findings
exactly when an age-field parse fails (`last_changed` truthy and unparseable,
or `last_changed` parsed and `max_age` truthy and unparseable); in either case
the record is not aborted — the age block contributes exactly that finding and
all remaining age checks are skipped. -/
theorem C4_invalid_date (pf last_changed max_age : String) (now : Int) :
    (invalidMsg ∈ recIssues pf last_changed max_age now ↔
      last_changed ≠ "" ∧
        (pyInt last_changed = none ∨ (max_age ≠ "" ∧ pyInt max_age = none)))
  ∧ (last_changed ≠ "" → pyInt last_changed = none →
      ageIssues last_changed max_age now = [invalidMsg])
  ∧ (∀ lc : Int, pyInt last_changed = some lc → max_age ≠ "" →
      pyInt max_age = none →
      ageIssues last_changed max_age now = [invalidMsg]) := by
  refine ⟨?_, ?_, ?_⟩
  · rw [← invalid_mem_ageIssues last_changed max_age now]
    unfold recIssues
    constructor
    · intro hm
      rcases List.mem_append.mp hm with hm | hm
      · rcases mem_pwIssues hm with h | h <;> exact absurd h (by decide)
      · exact hm
    · exact fun hm => List.mem_append.mpr (Or.inr hm)
  · intro h1 h2
    simp [ageIssues, h1, h2]
  · intro lc hlc h2 hq
    simp [ageIssues, pyInt_some_ne_empty hlc, hlc, h2, hq]

/-- Claim C6 fails as stated: with `now = 43200` (half a day past the epoch)
and `last_changed = 1`, the difference is half a day before the moment
`86400`, strictly between -1 and +1 day, so the claim's truncation toward
zero demands `days_since_change = 0`; the code's `timedelta.days` floors and
yields `-1`. -/
theorem C6_counterexample :
    -(86400 : Int) < 43200 - 1 * 86400 ∧ (43200 : Int) - 1 * 86400 < 86400
  ∧ daysSinceChangeTrunc 43200 1 = 0
  ∧ daysSinceChange 43200 1 = -1 := by decide

/-- Claim C6 amended: `days_since_change` is the floor (rounding toward
negative infinity) of the second difference divided by one day:
`86400 * d ≤ now - last_changed * 86400 < 86400 * (d + 1)`; so a difference
in `[0, 1)` days yields `0` but a difference in `(-1, 0)` days yields `-1`,
not `0`. -/
theorem C6_amended_floor (now lc : Int) :
    86400 * daysSinceChange now lc ≤ now - lc * 86400
  ∧ now - lc * 86400 < 86400 * (daysSinceChange now lc + 1) := by
  unfold daysSinceChange
  rw [Int.fdiv_eq_ediv _ (by norm_num)]
  omega

/-- The imperative accumulation loop is filtering-and-collecting: the final
`security_issues` list is the accumulator followed by the per-line results in
input order. -/
lemma analyzeLoop_eq (now : Int) (ls : List String) (acc : List Row) :
    analyzeLoop now ls acc = acc ++ ls.filterMap (fun l => processLine l now) := by
  induction ls generalizing acc with
  | nil => simp [analyzeLoop]
  | cons l ls ih =>
    unfold analyzeLoop
    cases h : processLine l now with
    | none => simp [h, ih]
    | some r => simp [h, ih]

/-- `security_issues` as a declarative filter of the input lines. -/
lemma securityRows_eq_filterMap (lines : List String) (now : Int) :
    securityRows lines now = lines.filterMap (fun l => processLine l now) := by
  simp [securityRows, analyzeLoop_eq]

/-- Claim C7: a line with fewer than 9 colon fields after stripping produces
no report row, leaves the row list (hence the row count) of the rest of the
run unchanged, emits exactly the skip diagnostic naming the stripped line,
and that diagnostic appears in the run's trace while processing continues. -/
theorem C7_malformed (l : String) (pre post : List String) (now : Int)
    (input_path output_path : String)
    (h : (splitParts l).length < 9) :
    processLine l now = none
  ∧ securityRows (pre ++ l :: post) now = securityRows (pre ++ post) now
  ∧ (securityRows (pre ++ l :: post) now).length =
      (securityRows (pre ++ post) now).length
  ∧ lineEffects l = [Effect.printMsg ("Skipping malformed line: " ++ pyStrip l)]
  ∧ Effect.printMsg ("Skipping malformed line: " ++ pyStrip l)
      ∈ run 0 (some (pre ++ l :: post)) now input_path output_path := by
  have hnone : processLine l now = none := by
    simp [processLine, h]
  have hrows : securityRows (pre ++ l :: post) now =
      securityRows (pre ++ post) now := by
    rw [securityRows_eq_filterMap, securityRows_eq_filterMap]
    simp [List.filterMap_append, List.filterMap_cons, hnone]
  have heff : lineEffects l =
      [Effect.printMsg ("Skipping malformed line: " ++ pyStrip l)] := by
    simp [lineEffects, h]
  refine ⟨hnone, hrows, by rw [hrows], heff, ?_⟩
  have h0 : ¬((0 : Int) ≠ 0) := by simp
  simp only [run, if_neg h0]
  refine List.mem_cons_of_mem _ (List.mem_cons_of_mem _ ?_)
  refine List.mem_append.mpr (Or.inl ?_)
  exact List.mem_flatMap.mpr ⟨l, by simp, by rw [heff]; simp⟩

/-- Witness for C7 on the 2-field line `"a:b"` between two well-formed lines. -/
theorem C7_malformed_witness :
    processLine "a:b" 0 = none
  ∧ securityRows ["u:h1:::::::", "a:b", "v:h2:::::::"] 0 =
      securityRows ["u:h1:::::::", "v:h2:::::::"] 0
  ∧ (securityRows ["u:h1:::::::", "a:b", "v:h2:::::::"] 0).length =
      (securityRows ["u:h1:::::::", "v:h2:::::::"] 0).length
  ∧ lineEffects "a:b" = [Effect.printMsg ("Skipping malformed line: " ++ pyStrip "a:b")]
  ∧ Effect.printMsg ("Skipping malformed line: " ++ pyStrip "a:b")
      ∈ run 0 (some (["u:h1:::::::"] ++ "a:b" :: ["v:h2:::::::"])) 0
          "/etc/shadow" "shadow_analysis.csv" :=
  C7_malformed "a:b" ["u:h1:::::::"] ["v:h2:::::::"] 0
    "/etc/shadow" "shadow_analysis.csv" (by decide)

/-- Claim C8: the output table is the fixed header followed by exactly one row
per input line whose record accumulated at least one finding, in input order;
a line contributes a row precisely when it is well-formed and its findings are
nonempty, and the row's `issues` cell is the findings joined with "; ". -/
theorem C8_report (lines : List String) (now : Int) :
    csvTable lines now =
      headerCells :: (lines.filterMap (fun l => processLine l now)).map rowCells
  ∧ (∀ l : String, (processLine l now).isSome ↔
      (9 ≤ (splitParts l).length ∧
        recIssues ((splitParts l).getD 1 "") ((splitParts l).getD 2 "")
          ((splitParts l).getD 4 "") now ≠ []))
  ∧ (∀ (l : String) (r : Row), processLine l now = some r →
      r.issues = joinSep "; "
        (recIssues ((splitParts l).getD 1 "") ((splitParts l).getD 2 "")
          ((splitParts l).getD 4 "") now)) := by
  refine ⟨by rw [csvTable, securityRows_eq_filterMap], fun l => ?_, fun l r hr => ?_⟩
  · simp only [processLine]
    by_cases h9 : (splitParts l).length < 9
    · rw [if_pos h9]
      constructor
      · intro hs; exact absurd hs (by simp)
      · rintro ⟨hge, -⟩; exact absurd hge (by omega)
    · rw [if_neg h9]
      by_cases hi : recIssues ((splitParts l).getD 1 "") ((splitParts l).getD 2 "")
          ((splitParts l).getD 4 "") now = []
      · rw [if_pos hi]
        constructor
        · intro hs; exact absurd hs (by simp)
        · rintro ⟨-, hne⟩; exact absurd hi hne
      · rw [if_neg hi]
        exact ⟨fun _ => ⟨Nat.not_lt.mp h9, hi⟩, fun _ => rfl⟩
  · simp only [processLine] at hr
    by_cases h9 : (splitParts l).length < 9
    · rw [if_pos h9] at hr; exact Option.noConfusion hr
    · rw [if_neg h9] at hr
      by_cases hi : recIssues ((splitParts l).getD 1 "") ((splitParts l).getD 2 "")
          ((splitParts l).getD 4 "") now = []
      · rw [if_pos hi] at hr; exact Option.noConfusion hr
      · rw [if_neg hi] at hr
        rw [← Option.some.inj hr]

/-- Claim C9: when the effective identity is not root, the whole trace is the
three privilege prints — the input is never opened or read, no output table is
written, and the run ends after the privilege message with the sudo
remediation instructions. -/
theorem C9_privilege (euid : Int) (input : Option (List String)) (now : Int)
    (input_path output_path : String) (h : euid ≠ 0) :
    run euid input now input_path output_path = privEffects
  ∧ Effect.openInput ∉ run euid input now input_path output_path
  ∧ (∀ t : List (List String),
      Effect.writeOutput t ∉ run euid input now input_path output_path) := by
  have he : run euid input now input_path output_path = privEffects := by
    simp [run, h]
  refine ⟨he, ?_, fun t => ?_⟩
  · rw [he]; decide
  · rw [he]; simp [privEffects]

/-- Witness for C9 at `euid = 1000` with an existing nonempty input file. -/
theorem C9_privilege_witness :
    run 1000 (some ["root:x:19000:0:90:7:::"]) 0 "/etc/shadow"
        "shadow_analysis.csv" = privEffects
  ∧ Effect.openInput ∉ run 1000 (some ["root:x:19000:0:90:7:::"]) 0
        "/etc/shadow" "shadow_analysis.csv" := by
  have h := C9_privilege 1000 (some ["root:x:19000:0:90:7:::"]) 0
    "/etc/shadow" "shadow_analysis.csv" (by decide)
  exact ⟨h.1, h.2.1⟩

/-- Claim C10: two well-formed lines that agree on fields 0, 1, 2, 4 and 5 but
differ in field 3 (`min_age`) or in some field at index 6 or beyond produce
identical findings, identical report-row contributions, and identical
diagnostics: `min_age` and the trailing fields never influence the output. -/
theorem C10_unused_fields (l1 l2 : String) (now : Int)
    (h1 : 9 ≤ (splitParts l1).length) (h2 : 9 ≤ (splitParts l2).length)
    (e0 : (splitParts l1)[0]? = (splitParts l2)[0]?)
    (e1 : (splitParts l1)[1]? = (splitParts l2)[1]?)
    (e2 : (splitParts l1)[2]? = (splitParts l2)[2]?)
    (e4 : (splitParts l1)[4]? = (splitParts l2)[4]?)
    (e5 : (splitParts l1)[5]? = (splitParts l2)[5]?)
    (_hdiff : (splitParts l1)[3]? ≠ (splitParts l2)[3]? ∨
      ∃ i : Nat, 6 ≤ i ∧ (splitParts l1)[i]? ≠ (splitParts l2)[i]?) :
    recIssues ((splitParts l1).getD 1 "") ((splitParts l1).getD 2 "")
        ((splitParts l1).getD 4 "") now
      = recIssues ((splitParts l2).getD 1 "") ((splitParts l2).getD 2 "")
        ((splitParts l2).getD 4 "") now
  ∧ processLine l1 now = processLine l2 now
  ∧ lineEffects l1 = lineEffects l2 := by
  have g0 : (splitParts l1).getD 0 "" = (splitParts l2).getD 0 "" := by
    simp [List.getD_eq_getElem?_getD, e0]
  have g1 : (splitParts l1).getD 1 "" = (splitParts l2).getD 1 "" := by
    simp [List.getD_eq_getElem?_getD, e1]
  have g2 : (splitParts l1).getD 2 "" = (splitParts l2).getD 2 "" := by
    simp [List.getD_eq_getElem?_getD, e2]
  have g4 : (splitParts l1).getD 4 "" = (splitParts l2).getD 4 "" := by
    simp [List.getD_eq_getElem?_getD, e4]
  have g5 : (splitParts l1).getD 5 "" = (splitParts l2).getD 5 "" := by
    simp [List.getD_eq_getElem?_getD, e5]
  have hrec : recIssues ((splitParts l1).getD 1 "") ((splitParts l1).getD 2 "")
      ((splitParts l1).getD 4 "") now
      = recIssues ((splitParts l2).getD 1 "") ((splitParts l2).getD 2 "")
        ((splitParts l2).getD 4 "") now := by
    rw [g1, g2, g4]
  refine ⟨hrec, ?_, ?_⟩
  · unfold processLine
    rw [if_neg (Nat.not_lt.mpr h1), if_neg (Nat.not_lt.mpr h2)]
    rw [g0, g1, g2, g4, g5]
  · unfold lineEffects
    rw [if_neg (Nat.not_lt.mpr h1), if_neg (Nat.not_lt.mpr h2)]

/-- Witness for C10: two 9-field lines differing only in `min_age`. -/
theorem C10_unused_fields_witness :
    recIssues ((splitParts "u:x:1:0:30:7:::").getD 1 "")
        ((splitParts "u:x:1:0:30:7:::").getD 2 "")
        ((splitParts "u:x:1:0:30:7:::").getD 4 "") 0
      = recIssues ((splitParts "u:x:1:99:30:7:::").getD 1 "")
        ((splitParts "u:x:1:99:30:7:::").getD 2 "")
        ((splitParts "u:x:1:99:30:7:::").getD 4 "") 0
  ∧ processLine "u:x:1:0:30:7:::" 0 = processLine "u:x:1:99:30:7:::" 0
  ∧ lineEffects "u:x:1:0:30:7:::" = lineEffects "u:x:1:99:30:7:::" :=
  C10_unused_fields "u:x:1:0:30:7:::" "u:x:1:99:30:7:::" 0
    (by decide) (by decide) (by decide) (by decide) (by decide) (by decide)
    (by decide) (Or.inl (by decide))

end ShadowAnalyzer
